import Mathlib

/-!
# A verification development for the `rusty_ytdl` video-extraction library

This file gives a shallow embedding, in Lean 4, of the parts of the
`rusty_ytdl` repository that its specification talks about, and proves (or
refutes) the specification's claims against that embedding.

Embedded source files (under `src/`):
* `src/info.rs` — the `Video` facade: `get_basic_info`, `get_info`,
  `stream`, `get_video_url`, `get_video_id`, and the `get_m3u8` manifest
  line-scanner;
* `src/info_extras.rs` — the incidental metadata extractors `get_media`,
  `get_storyboards`, `get_chapters`;
* `src/blocking/info.rs` and `src/blocking/stream/streams.rs` — the
  blocking adapters.

The repository's `utils.rs`, `structs.rs`, `constants.rs` and `stream.rs`
are *not* part of the given sources; definitions that stand in for them are
modelled from the specification and carry a doc comment starting with
`Modelled from the spec:`.

Conventions of the embedding:
* `serde_json::Value` is embedded as the inductive `Json` below, with
  numbers restricted to integers (no claim under study depends on float
  values; the one float computation, chapter seconds, is embedded as a
  truncated integer division).
* Rust panics (`.unwrap()` on `None`/`Err`, integer division by zero) are
  embedded as `none` / the `RunResult.panics` outcome; Rust `Result` is
  embedded as `Except` / `RunResult`.
* Machine integers are embedded as `Nat`/`Int`; `i32` parsing checks the
  `i32` range explicitly.
* Core `String` functions that Lean 4.14 defines by well-founded recursion
  do not reduce in the kernel, so the handful of string operations the
  source uses (`contains`, `replace`, `trim`, `split`, numeric parsing) are
  re-implemented here structurally over `List Char` with the same
  behaviour as their Rust counterparts.
-/

/-! ## String utilities (structural re-implementations of the Rust ones) -/

/-- `isPrefixL pat s` : does `s` start with `pat`? -/
def isPrefixL : List Char → List Char → Bool
  | [], _ => true
  | _ :: _, [] => false
  | a :: as, b :: bs => a == b && isPrefixL as bs

/-- Split `s` on the non-empty pattern `p :: pat`, fuel-structured so that
the kernel can evaluate it.  With `fuel = s.length` this is exactly Rust's
`str::split` on a literal pattern. -/
def splitOnF (p : Char) (pat : List Char) : Nat → List Char → List Char → List (List Char)
  | _, [], acc => [acc.reverse]
  | 0, s, acc => [acc.reverse ++ s]
  | fuel + 1, c :: cs, acc =>
    if isPrefixL (p :: pat) (c :: cs) then
      acc.reverse :: splitOnF p pat fuel (List.drop pat.length cs) []
    else
      splitOnF p pat fuel cs (c :: acc)

/-- Rust `str::split(pattern)` / `str::splitOn`: split on every
non-overlapping occurrence of `pat` (empty patterns do not occur in the
source; they are mapped to the identity split). -/
def splitStr (s pat : String) : List String :=
  match pat.data with
  | [] => [s]
  | p :: ps => (splitOnF p ps s.data.length s.data []).map String.mk

/-- Rust `str::contains(pattern)` for literal patterns. -/
def containsStr (s pat : String) : Bool :=
  (splitStr s pat).length > 1

/-- Rust `str::replace(pattern, replacement)`: replace every
non-overlapping occurrence, left to right. -/
def replaceStr (s pat rep : String) : String :=
  String.mk ((splitStr s pat).map String.data |>.intersperse rep.data |>.flatten)

/-- Rust `str::trim`: strip leading and trailing whitespace. -/
def trimStr (s : String) : String :=
  String.mk (((s.data.dropWhile Char.isWhitespace).reverse.dropWhile Char.isWhitespace).reverse)

/-- Rust `String::pop`: drop the last character (no effect on the empty
string, and `pop` never panics). -/
def popStr (s : String) : String :=
  String.mk s.data.dropLast

/-- Rust `str::starts_with` for literal patterns. -/
def startsWithStr (s pat : String) : Bool :=
  isPrefixL pat.data s.data

/-- Digit-string to `Nat` (helper for the numeric parsers). -/
def digitsToNat : List Char → Nat → Nat
  | [], acc => acc
  | c :: cs, acc => digitsToNat cs (acc * 10 + (c.toNat - '0'.toNat))

/-- Rust `str::parse::<u64>()` (truncated to the values the claims touch:
a non-empty all-digit string parses, anything else fails). -/
def parseU64 (s : String) : Option Nat :=
  match s.data with
  | [] => none
  | ds => if ds.all Char.isDigit then some (digitsToNat ds 0) else none

/-- Rust `str::parse::<i32>()`: optional sign, all digits, `i32` range. -/
def parseI32 (s : String) : Option Int :=
  let signed : Option Int :=
    match s.data with
    | '-' :: ds => (parseU64 (String.mk ds)).map (fun n => -(n : Int))
    | '+' :: ds => (parseU64 (String.mk ds)).map (fun n => (n : Int))
    | ds => (parseU64 (String.mk ds)).map (fun n => (n : Int))
  signed.bind fun n =>
    if -(2147483648 : Int) ≤ n ∧ n ≤ 2147483647 then some n else none

/-- Rust `i32` division: truncated division, panicking (modelled as `none`)
on a zero divisor or on `i32::MIN / -1` overflow. -/
def rustDivI32 (a b : Int) : Option Int :=
  if b = 0 then none
  else if a = -2147483648 ∧ b = -1 then none
  else some (Int.tdiv a b)

/-! ## The JSON value model (`serde_json::Value`) -/

/-- Embedding of `serde_json::Value`.  Numbers are restricted to integers;
see the header comment. -/
inductive Json where
  | null
  | bool (b : Bool)
  | num (n : Int)
  | str (s : String)
  | arr (xs : List Json)
  | obj (kvs : List (String × Json))

instance : Inhabited Json := ⟨Json.null⟩

/-- `serde_json::Value::get(key)`: key lookup on objects, `None` on
everything else. -/
def jGet (j : Json) (k : String) : Option Json :=
  match j with
  | .obj kvs => (kvs.find? (fun kv => kv.1 == k)).map (·.2)
  | _ => none

/-- `Value::as_str`. -/
def Json.asStr : Json → Option String
  | .str s => some s
  | _ => none

/-- `Value::as_array`. -/
def Json.asArr : Json → Option (List Json)
  | .arr xs => some xs
  | _ => none

/-- `Value::as_object`. -/
def Json.asObj : Json → Option (List (String × Json))
  | .obj kvs => some kvs
  | _ => none

/-- `Value::as_bool`. -/
def Json.asBool : Json → Option Bool
  | .bool b => some b
  | _ => none

/-- `Value::as_f64` on the integral numbers of this model. -/
def Json.asNum : Json → Option Int
  | .num n => some n
  | _ => none

/-- `Value::is_array`. -/
def Json.isArr : Json → Bool
  | .arr _ => true
  | _ => false

/-! ## Error kinds (`VideoError`, from the spec's §7 and the variants the
source constructs) -/

/-- Embedding of `structs::VideoError`.  `structs.rs` is not under `src/`;
the variant list is the one §7 of the spec gives, with the source's own
names (`VideoSourceNotFound` is the spec's `SourceUnavailable`). -/
inductive VideoError where
  | VideoNotFound
  | VideoIsPrivate
  | VideoSourceNotFound
  | URLParseError
  | ParseError
  | FormatNotFound
  | TransportError
  | ConfigError
deriving DecidableEq, Repr

/-- Outcome of running one public operation: a value, a typed failure, or a
process-terminating panic (Rust `.unwrap()` on an error / division by
zero).  The `panics` outcome is what the spec's §7 claims can never
happen. -/
inductive RunResult (α : Type) where
  | ok (a : α)
  | fail (e : VideoError)
  | panics
deriving DecidableEq, Repr

/-! ## Formats and the catalog builder -/

/-- Embedding of `structs::VideoFormat` (`structs.rs` is not under `src/`;
the fields are the ones the spec's §3 names and the claims touch:
locator, numeric identifier, audio/video presence, container preference
rank, bitrate, and the optional declared content length).  Spec invariant:
post-catalog-build every entry has a non-empty locator. -/
structure VideoFormat where
  itag : Int
  url : String
  hasVideo : Bool
  hasAudio : Bool
  containerRank : Nat
  bitrate : Nat
  contentLength : Option String
deriving DecidableEq, Repr

/-- Modelled from the spec: the signature-transform routine recovered from
the player script is "an ordered sequence of primitive operations
(reverse, swap-at-index, splice-from-index — a small fixed operation
set)" (§4.3); `utils.rs`, which discovers and applies it, is not under
`src/`. -/
inductive SigOp where
  | reverse
  | swap (n : Nat)
  | splice (n : Nat)
deriving DecidableEq, Repr

/-- Modelled from the spec: apply one primitive cipher operation to the
signature (§4.3). -/
def applySigOp (s : List Char) : SigOp → List Char
  | .reverse => s.reverse
  | .swap n =>
    match s with
    | [] => []
    | _ =>
      let i := n % s.length
      (s.set 0 (s.getD i ' ')).set i (s.getD 0 ' ')
  | .splice n => s.drop n

/-- One raw streaming-data format entry, pre-decipherment: "each raw entry
carries either a ready URL or a signature-cipher string" (spec §4.3).
The static metadata travels with it. -/
structure RawFormat where
  itag : Int
  url : Option String
  signatureCipher : Option (String × String)
  hasVideo : Bool
  hasAudio : Bool
  containerRank : Nat
  bitrate : Nat
  contentLength : Option String
deriving DecidableEq, Repr

/-- Modelled from the spec: decipher one raw entry (`utils.rs` is not
under `src/`).  A ready URL passes through; a cipher entry needs the
recovered operation sequence (`ops`); when the player-script shape was
not matched (`ops = none`) or the entry has no usable locator, the entry
is dropped (`none`) — "decipherment failure drops only the affected
format" (§4.3). -/
def decipherFormat (ops : Option (List SigOp)) (rf : RawFormat) : Option VideoFormat :=
  match rf.url with
  | some u =>
    some { itag := rf.itag, url := u, hasVideo := rf.hasVideo, hasAudio := rf.hasAudio,
           containerRank := rf.containerRank, bitrate := rf.bitrate,
           contentLength := rf.contentLength }
  | none =>
    match rf.signatureCipher, ops with
    | some (sig, base), some ops =>
      some { itag := rf.itag,
             url := base ++ "&sig=" ++ String.mk (ops.foldl applySigOp sig.data),
             hasVideo := rf.hasVideo, hasAudio := rf.hasAudio,
             containerRank := rf.containerRank, bitrate := rf.bitrate,
             contentLength := rf.contentLength }
    | _, _ => none

/-- Modelled from the spec: `utils::parse_video_formats` (not under
`src/`) builds the streaming-data side of the catalog, deciphering each
entry independently and dropping the failures. -/
def parse_video_formats (ops : Option (List SigOp)) (rfs : List RawFormat) : List VideoFormat :=
  rfs.filterMap (decipherFormat ops)

/-! ## The format comparator and the stable sort -/

/-- Both-audio-and-video ("progressive") formats, the spec's first sort
key (§4.4). -/
def bothAV (f : VideoFormat) : Bool := f.hasVideo && f.hasAudio

/-- Three-way comparison on `Nat` (structural, kernel-friendly). -/
def cmpNat (m n : Nat) : Ordering :=
  if m < n then .lt else if n < m then .gt else .eq

/-- Modelled from the spec: the comparator `utils::sort_formats` (not
under `src/`).  "Sort order, descending priority: both-audio-and-video
before audio-only/video-only; then container preference; then numeric
quality/bitrate descending" (§4.4). -/
def sort_formats (a b : VideoFormat) : Ordering :=
  match bothAV a, bothAV b with
  | true, false => .lt
  | false, true => .gt
  | _, _ =>
    match cmpNat a.containerRank b.containerRank with
    | .eq => cmpNat b.bitrate a.bitrate
    | o => o

/-- Stable insertion relative to a comparator: the new element goes in
front of the first resident it does not strictly exceed.  This is the
specification of a stable sort's insert step (Rust `Vec::sort_by` is
stable). -/
def insertC (c : α → α → Ordering) (x : α) : List α → List α
  | [] => [x]
  | y :: ys => if c x y = .gt then y :: insertC c x ys else x :: y :: ys

/-- Stable sort by a comparator, as iterated stable insertion.  The
element discovered first is inserted last, so on ties it stays in front:
exactly the stability contract of `Vec::sort_by`. -/
def sortC (c : α → α → Ordering) (l : List α) : List α :=
  l.foldr (insertC c) []

/-! ## The built-in itag table and the manifest line scanner -/

/-- Static per-itag metadata row of the built-in table. -/
structure StaticFormat where
  hasVideo : Bool
  hasAudio : Bool
  containerRank : Nat
  bitrate : Nat
deriving DecidableEq, Repr

/-- Modelled from the spec: `constants::FORMATS` (not under `src/`), the
"fixed built-in table" mapping numeric format identifiers to static
metadata (§4.3(b)); the live-stream HLS itags are the rows `get_info`
consults. -/
def FORMATS : List (String × StaticFormat) :=
  [("91", ⟨true, true, 0, 100000⟩),
   ("92", ⟨true, true, 0, 150000⟩),
   ("93", ⟨true, true, 0, 500000⟩),
   ("94", ⟨true, true, 0, 800000⟩),
   ("95", ⟨true, true, 0, 1500000⟩),
   ("96", ⟨true, true, 0, 2500000⟩)]

/-- The itag capture of `get_m3u8`'s regex `/itag/(\d+)/`
(`src/info.rs:422`): the digits between `/itag/` and the next `/`. -/
def extractItag (line : String) : Option String :=
  match (splitStr line "/itag/").tail.head? with
  | none => none
  | some rest =>
    let ds := rest.data.takeWhile Char.isDigit
    if ds.isEmpty then none
    else if isPrefixL ['/'] (rest.data.drop ds.length) then some (String.mk ds)
    else none

/-- The line scan of `get_m3u8` (`src/info.rs:424-440`): keep the lines
that look like URLs and carry an itag, and pair each with its itag.  (The
fetch itself and the host rewrite are transport, handled by the caller;
the fetched body is this function's input.) -/
def get_m3u8_lines (body : String) : List (String × String) :=
  ((splitStr body "\n").filter
      (fun l => (startsWithStr l "http://" || startsWithStr l "https://")
        && (extractItag l).isSome)).map
    (fun l => ((extractItag l).getD "", l))

/-- The per-line format build of `get_info`'s HLS loop
(`src/info.rs:252-299`): look the itag up in the fixed table — "unknown
identifiers are discarded" (`continue`) — and otherwise assemble the
format around the line's URL, with `itag.parse::<i32>().unwrap_or(0)`.
(The `serde_json::from_value` re-decode at the end of the loop cannot fail
on the fields assembled here.) -/
def hlsFormatFromLine (itag url : String) : Option VideoFormat :=
  match FORMATS.find? (fun p => p.1 == itag) with
  | none => none
  | some (_, sf) =>
    some { itag := (parseI32 itag).getD 0, url := url, hasVideo := sf.hasVideo,
           hasAudio := sf.hasAudio, containerRank := sf.containerRank,
           bitrate := sf.bitrate, contentLength := none }

/-! ## The dual-blob extractor (`src/info.rs:124-154`) -/

/-- The two inline-script markers (`src/info.rs:129` and `:137`). -/
def playerMarker : String := "var ytInitialPlayerResponse ="

/-- See `playerMarker`. -/
def initialMarker : String := "var ytInitialData ="

/-- The string pipeline of `src/info.rs:127-146` for one marker, over the
page's script inner-texts: keep the scripts containing the marker, strip
the assignment prefix from the first one (`""` if none), trim, and `pop`
the trailing `;`. -/
def blobString (marker : String) (scripts : List String) : String :=
  let s := ((((scripts.filter (fun x => containsStr x marker)).map
      (fun x => replaceStr x marker "")).head?).getD "")
  popStr (trimStr s)

/-- The blob-parsing step of `src/info.rs:148-153`.  `fromStr` is the
external JSON parser (`serde_json::from_str`); the source applies
`.unwrap()` to both parses, so a failed parse is a panic — embedded as
`none`.  No `VideoError` can be produced here. -/
def extractBlobs (fromStr : String → Option Json) (scripts : List String) :
    Option (Json × Json) :=
  match fromStr (blobString playerMarker scripts),
        fromStr (blobString initialMarker scripts) with
  | some player_response, some initial_response => some (player_response, initial_response)
  | _, _ => none

/-! ## The playability gate (`src/info.rs:156-169`) -/

/-- Modelled from the spec: `utils::is_play_error` (not under `src/`) —
§4.2's "error-status field present": the playability status is one of the
given error statuses. -/
def is_play_error (pr : Json) (statuses : List String) : Bool :=
  match ((jGet pr "playabilityStatus").bind (jGet · "status")).bind Json.asStr with
  | some s => statuses.contains s
  | none => false

/-- Modelled from the spec: `utils::is_private_video` (not under `src/`) —
§4.2's "privacy flag set", read as the response's privacy flag being
`true`. -/
def is_private_video (pr : Json) : Bool :=
  (((jGet pr "videoDetails").bind (jGet · "isPrivate")).bind Json.asBool).getD false

/-- Modelled from the spec: `utils::is_rental` (not under `src/`) —
§4.2's "rental-only flag set", read as a boolean flag on the playability
status. -/
def is_rental (pr : Json) : Bool :=
  (((jGet pr "playabilityStatus").bind (jGet · "ypcRental")).bind Json.asBool).getD false

/-- Modelled from the spec: `utils::is_not_yet_broadcasted` (not under
`src/`) — §4.2's "not-yet-broadcast live events", read as a boolean
upcoming-event flag. -/
def is_not_yet_broadcasted (pr : Json) : Bool :=
  (((jGet pr "videoDetails").bind (jGet · "isUpcoming")).bind Json.asBool).getD false

/-- The ordered playability gate: the three early returns of
`src/info.rs:156-169`, first match wins.  `none` means the response is
playable. -/
def playabilityGate (player_response : Json) : Option VideoError :=
  if is_play_error player_response ["ERROR"] then some .VideoNotFound
  else if is_private_video player_response then some .VideoIsPrivate
  else if (jGet player_response "streamingData").isNone
      || is_rental player_response
      || is_not_yet_broadcasted player_response then some .VideoSourceNotFound
  else none

/-! ## Incidental metadata extractors (`src/info_extras.rs`) -/

/-- Modelled from the spec: `utils::get_text` (not under `src/`) — the
reusable text-object accessor of §9: the object's `simpleText`, or the
concatenation of its runs' texts, total on any JSON shape. -/
def get_text (j : Json) : Json :=
  match jGet j "simpleText" with
  | some t => t
  | none =>
    match (jGet j "runs").bind Json.asArr with
    | some rs =>
      Json.str (String.join (rs.map (fun r => (((jGet r "text").bind Json.asStr).getD ""))))
    | none => Json.null

/-- Modelled collaborator (`url` crate): `Url::parse`, accepting the
absolute http(s) URLs the claims exercise. -/
def urlParse (s : String) : Option String :=
  if startsWithStr s "http://" || startsWithStr s "https://" then some s else none

/-- Modelled collaborator (`url` crate):
`url.query_pairs_mut().append_pair(k, v)` (percent-encoding not
modelled; no claim depends on it). -/
def appendQueryPair (u k v : String) : String :=
  u ++ (if containsStr u "?" then "&" else "?") ++ k ++ "=" ++ v

mutual

/-- Compact JSON rendering (the `Display` of `serde_json::Value`, used by
the `format!` in `get_media`'s rich-metadata branch; string escaping not
modelled — no claim depends on the rendered text). -/
def jsonToString : Json → String
  | .null => "null"
  | .bool true => "true"
  | .bool false => "false"
  | .num n => toString n
  | .str s => "\"" ++ s ++ "\""
  | .arr xs => "[" ++ jsonListToString xs ++ "]"
  | .obj kvs => "\x7b" ++ jsonObjToString kvs ++ "\x7d"

/-- See `jsonToString`. -/
def jsonListToString : List Json → String
  | [] => ""
  | [x] => jsonToString x
  | x :: xs => jsonToString x ++ "," ++ jsonListToString xs

/-- See `jsonToString`. -/
def jsonObjToString : List (String × Json) → String
  | [] => ""
  | [(k, v)] => "\"" ++ k ++ "\":" ++ jsonToString v
  | (k, v) :: kvs => "\"" ++ k ++ "\":" ++ jsonToString v ++ "," ++ jsonObjToString kvs

end

/-- The `format!` template of `src/info_extras.rs:103-115` (reproduced
verbatim, including its unbalanced `"category: ` quote — the rendered
text is handed to `serde_json::from_str` whose failure is defaulted). -/
def mediaRowTemplate (title title_content title_url category category_url : String) : String :=
  "\n                \"" ++ title ++ "\": " ++ title_content ++
  ",\n                \"" ++ title ++ "_url\": " ++ title_url ++
  ",\n                \"category: " ++ category ++
  ",\n                \"category_url\": " ++ category_url ++ ",\n                "

/-- The `format!` template of `src/info_extras.rs:203-219` (reproduced
verbatim, unbalanced quotes included). -/
def mediaRichTemplate (media_year media_type media_type_title media_type_url media_thumbnails category category_url : String) : String :=
  "\n                    \"year\": " ++ media_year ++
  ",\n                    \"" ++ media_type ++ "\": " ++ media_type_title ++
  ",\n                    \"" ++ media_type ++ "_url\": " ++ media_type_url ++
  ",\n                    \"thumbnails: " ++ media_thumbnails ++
  ",\n                    \"category: " ++ category ++
  ",\n                    \"category_url\": " ++ category_url ++ ",\n                    "

/-- `info_extras::get_media` (`src/info_extras.rs:4-232`).  `fromStr` is
the external `serde_json::from_str`.  Every lookup is defaulted in the
source, and both return paths produce `Some`; the embedding mirrors the
source's defaulted chains step by step (`info.as_object().and_then(|x|
x.get("contents"))` coincides with `jGet info "contents"`).  The
per-row loop overwrites `return_object`, it does not merge. -/
def get_media (fromStr : String → Option Json) (info : Json) : Option Json :=
  let empty_serde_array := Json.arr []
  let empty_serde_object_array := [Json.obj []]
  let empty_serde_object := Json.obj []
  let results :=
    (((((((jGet info "contents").bind
        (jGet · "twoColumnWatchNextResults")).bind
        (jGet · "results")).bind
        (jGet · "results")).bind
        (jGet · "contents")).getD empty_serde_array).asArr).getD empty_serde_object_array
  let result_option := results.find? (fun x => (jGet x "videoSecondaryInfoRenderer").isSome)
  match result_option with
  | none => some (Json.obj [])
  | some result =>
    let metadata_rows :=
      ((if (jGet result "metadataRowContainer").isSome then
          ((((jGet result "metadataRowContainer").bind
              (jGet · "metadataRowContainerRenderer")).bind
              (jGet · "rows")).getD empty_serde_object)
        else if (jGet result "videoSecondaryInfoRenderer").isSome
            && ((jGet result "videoSecondaryInfoRenderer").bind
                (jGet · "metadataRowContainer")).isSome then
          (((((jGet result "videoSecondaryInfoRenderer").bind
              (jGet · "metadataRowContainer")).bind
              (jGet · "metadataRowContainerRenderer")).bind
              (jGet · "rows")).getD empty_serde_object)
        else empty_serde_object).asArr).getD empty_serde_object_array
    let return_object := metadata_rows.foldl (fun return_object row =>
      if (jGet row "metadataRowRenderer").isSome then
        let title := ((get_text (((jGet row "metadataRowRenderer").bind
            (jGet · "title")).getD empty_serde_object)).asStr).getD "title"
        let contents := (((((jGet row "metadataRowRenderer").bind
            (jGet · "contents")).bind Json.asArr).getD empty_serde_object_array).head?).getD
            empty_serde_object
        let runs := jGet contents "runs"
        let title_url :=
          if runs.isSome && ((runs.getD empty_serde_object).isArr)
              && (((((runs.getD empty_serde_object).asArr).bind (·.head?)).bind
                  (jGet · "navigationEndpoint")).isSome) then
            ((((((((((runs.getD empty_serde_array).asArr).getD
                empty_serde_object_array).head?).bind
                (jGet · "navigationEndpoint")).bind
                (jGet · "commandMetadata")).bind
                (jGet · "webCommandMetadata")).bind
                (jGet · "url")).bind Json.asStr).getD "")
          else ""
        let category := if title == "song" then "Music" else ""
        let category_url := if title == "song" then "https://music.youtube.com/" else ""
        let data := mediaRowTemplate title (((get_text contents).asStr).getD "")
            title_url category category_url
        (fromStr data).getD (Json.obj [])
      else if (jGet row "richMetadataRowRenderer").isSome then
        let contents := ((((jGet row "richMetadataRowRenderer").bind
            (jGet · "contents")).bind Json.asArr).getD empty_serde_object_array)
        let box_art := contents.filter (fun x =>
          ((((jGet x "richMetadataRenderer").bind (jGet · "style")).bind Json.asStr).getD "")
            == "RICH_METADATA_RENDERER_STYLE_BOX_ART")
        let bx := box_art.foldl (fun _ box_art_value =>
            let meta := (jGet box_art_value "richMetadataRenderer").getD empty_serde_object
            (((get_text ((jGet meta "subtitle").getD empty_serde_object)).asStr).getD "",
             ((splitStr (((get_text ((jGet meta "callToAction").getD
                 empty_serde_object)).asStr).getD "type") " ")[1]?).getD "type",
             ((get_text ((jGet meta "title").getD empty_serde_object)).asStr).getD "",
             (((((jGet meta "endpoint").bind (jGet · "commandMetadata")).bind
                 (jGet · "webCommandMetadata")).bind (jGet · "url")).bind Json.asStr).getD "",
             ((jGet meta "thumbnail").bind (jGet · "thumbnails")).getD empty_serde_array))
          ("", "type", "", "", empty_serde_array)
        let topic := contents.filter (fun x =>
          ((((jGet x "richMetadataRenderer").bind (jGet · "style")).bind Json.asStr).getD "")
            == "RICH_METADATA_RENDERER_STYLE_TOPIC")
        let ct := topic.foldl (fun _ topic_value =>
            let meta := (jGet topic_value "richMetadataRenderer").getD empty_serde_object
            (((get_text ((jGet meta "title").getD empty_serde_object)).asStr).getD "",
             (((((jGet meta "endpoint").bind (jGet · "commandMetadata")).bind
                 (jGet · "webCommandMetadata")).bind (jGet · "url")).bind Json.asStr).getD ""))
          ("", "")
        let data := mediaRichTemplate bx.1 bx.2.1 bx.2.2.1 bx.2.2.2.1
            (jsonToString bx.2.2.2.2) ct.1 ct.2
        (fromStr data).getD (Json.obj [])
      else return_object) (Json.obj [])
    some return_object

/-- Embedding of `structs::StoryBoard`. -/
structure StoryBoard where
  template_url : String
  thumbnail_width : Int
  thumbnail_height : Int
  thumbnail_count : Int
  interval : Int
  columns : Int
  rows : Int
  storyboard_count : Int
deriving DecidableEq, Repr

/-- One iteration of `get_storyboards`' part loop
(`src/info_extras.rs:605-640`), threading the mutated `url` through.  The
`none` outcome models the panic of the `i32` division
`thumbnail_count_parsed / (columns_parsed * rows_parsed)`
(`src/info_extras.rs:622-623`) on a zero divisor. -/
def sbStep (acc : String × List StoryBoard) (ip : Nat × String) : Option (String × List StoryBoard) :=
  let i := ip.1
  let part := ip.2
  let part_split_vec := splitStr part "#"
  let thumbnail_width := (part_split_vec.head?).getD "0"
  let thumbnail_height := (part_split_vec[1]?).getD "0"
  let thumbnail_count := (part_split_vec[2]?).getD "0"
  let columns := (part_split_vec[3]?).getD "0"
  let rows := (part_split_vec[4]?).getD "0"
  let interval := (part_split_vec[5]?).getD "0"
  let name_replacement := (part_split_vec[6]?).getD "0"
  let sigh := (part_split_vec[7]?).getD "0"
  let url := appendQueryPair acc.1 "sigh" sigh
  let thumbnail_count_parsed := (parseI32 thumbnail_count).getD 0
  let columns_parsed := (parseI32 columns).getD 0
  let rows_parsed := (parseI32 rows).getD 0
  match rustDivI32 thumbnail_count_parsed (columns_parsed * rows_parsed) with
  | none => none
  | some storyboard_count_ceiled =>
    let template_url := replaceStr (replaceStr url "$L" (toString i)) "$N" name_replacement
    let sb : StoryBoard :=
      { template_url := template_url,
        thumbnail_width := (parseI32 thumbnail_width).getD 0,
        thumbnail_height := (parseI32 thumbnail_height).getD 0,
        thumbnail_count := thumbnail_count_parsed,
        interval := (parseI32 interval).getD 0,
        columns := columns_parsed,
        rows := rows_parsed,
        storyboard_count := storyboard_count_ceiled }
    some (url, acc.2 ++ [sb])

/-- `info_extras::get_storyboards` (`src/info_extras.rs:586-643`).  The
Rust function never returns `None` (the absent-spec early return is
`Some(vec![])`); the embedding's `none` therefore models exactly a panic
of the division inside the loop. -/
def get_storyboards (info : Json) : Option (List StoryBoard) :=
  let parts := (((jGet info "storyboards").bind
      (jGet · "playerStoryboardSpecRenderer")).bind (jGet · "spec")).bind Json.asStr
  match parts with
  | none => some []
  | some spec =>
    let parts := splitStr spec "|"
    let url := (urlParse ((parts.head?).getD "")).getD "https://i.ytimg.com/"
    match parts.tail.enum.foldlM sbStep (url, []) with
    | none => none
    | some st => some st.2

/-- Embedding of `structs::Chapter` (`start_time` is the millisecond value
divided by 1000 and truncated to `i32`; embedded as truncated integer
division). -/
structure Chapter where
  title : String
  start_time : Int
deriving DecidableEq, Repr

/-- Rust `usize::MAX`, the sentinel `unwrap_or` index of the source's
position searches; indexing any real vector with it yields `None`. -/
def usizeMAX : Nat := 18446744073709551615

/-- `info_extras::get_chapters` (`src/info_extras.rs:645-712`).  Both
return paths are `Some`; every lookup is defaulted. -/
def get_chapters (info : Json) : Option (List Chapter) :=
  let serde_empty_object := Json.obj []
  let empty_serde_object_array := [Json.obj []]
  let player_overlay_renderer := ((jGet info "playerOverlays").bind
      (jGet · "playerOverlayRenderer")).getD serde_empty_object
  let player_bar := (((jGet player_overlay_renderer "decoratedPlayerBarRenderer").bind
      (jGet · "decoratedPlayerBarRenderer")).bind (jGet · "playerBar")).getD serde_empty_object
  let markers_map := (((jGet player_bar "multiMarkersPlayerBarRenderer").bind
      (jGet · "markersMap")).bind Json.asArr).getD empty_serde_object_array
  let marker_index := (markers_map.findIdx? (fun x =>
      (jGet x "value").isSome
        && (((jGet x "value").map
            (fun c => ((jGet c "chapters").map Json.isArr).getD false)).getD false))).getD usizeMAX
  let marker := ((markers_map[marker_index]?).bind Json.asObj).getD []
  if marker.isEmpty then some []
  else
    let chapters := ((((marker.find? (fun kv => kv.1 == "value")).map (·.2)).bind
        (jGet · "chapters")).bind Json.asArr).getD empty_serde_object_array
    some (chapters.map (fun x =>
      { title := ((get_text (((jGet x "chapterRenderer").bind
            (jGet · "title")).getD serde_empty_object)).asStr).getD "",
        start_time := Int.tdiv ((((jGet x "chapterRenderer").bind
            (jGet · "timeRangeStartMillis")).bind Json.asNum).getD 0) 1000 }))

/-! ## The `Video` facade (`src/info.rs`) -/

/-- Embedding of `structs::VideoInfo`, restricted to the fields the
claims under study touch (the manifest URLs and the ordered formats; the
incidental `video_details`/`related_videos` blocks are produced by the
always-total defaulted extractors and carry no claim content). -/
structure VideoInfo where
  dashManifestUrl : Option String
  hlsManifestUrl : Option String
  formats : List VideoFormat
deriving DecidableEq, Repr

/-- `Video::get_basic_info` (`src/info.rs:113-201`), from the fetched
page's script texts onwards.  Inputs standing for external effects:
`fromStr` is `serde_json::from_str`; `rawFormats` is the streaming-data
format array of the parsed player response (its decoding lives in the
missing `utils.rs`, so the embedding receives the entries directly); and
`ops` is the operation sequence recovered from the fetched player script
by `get_functions` (`none` when no transform routine was matched).

Stages, in source order: the dual-blob extraction with its two
`.unwrap()`ed parses (panic on failure); the playability gate; the
`.unwrap()` of `get_media` (`src/info.rs:174`); the manifest URLs read
from `streamingData` (`:178-188`); the catalog from `parse_video_formats`,
defaulted to `[]` on failure (`:193-197`). -/
def get_basic_info (fromStr : String → Option Json) (scripts : List String)
    (rawFormats : List RawFormat) (ops : Option (List SigOp)) : RunResult VideoInfo :=
  match extractBlobs fromStr scripts with
  | none => .panics
  | some (player_response, initial_response) =>
    match playabilityGate player_response with
    | some e => .fail e
    | none =>
      match get_media fromStr initial_response with
      | none => .panics
      | some _media =>
        let dash_manifest_url :=
          ((jGet player_response "streamingData").bind (jGet · "dashManifestUrl")).bind Json.asStr
        let hls_manifest_url :=
          ((jGet player_response "streamingData").bind (jGet · "hlsManifestUrl")).bind Json.asStr
        .ok { dashManifestUrl := dash_manifest_url,
              hlsManifestUrl := hls_manifest_url,
              formats := parse_video_formats ops rawFormats }

/-- The manifest-recovered formats `get_info` appends
(`src/info.rs:210-301`): nothing unless `has_manifest` and an HLS URL is
present (the DASH branch is commented out in the source); a failed
manifest fetch (`manifestBody = none`) is skipped; otherwise the fetched
body's scanned lines, each built by `hlsFormatFromLine` with unknown
itags and undecodable entries dropped (`continue`). -/
def manifestExtras (info : VideoInfo) (manifestBody : Option String) : List VideoFormat :=
  let has_manifest := info.dashManifestUrl.isSome || info.hlsManifestUrl.isSome
  if has_manifest && info.hlsManifestUrl.isSome then
    match manifestBody with
    | none => []
    | some body => (get_m3u8_lines body).filterMap (fun p => hlsFormatFromLine p.1 p.2)
  else []

/-- `Video::get_info` (`src/info.rs:205-306`): `get_basic_info`, then the
manifest-recovered formats appended, then the final stable
`sort_by(sort_formats)` (`:304`).  `manifestBody` is the body fetched from
the HLS manifest URL (`none` = fetch error, skipped at `:247`). -/
def get_info (fromStr : String → Option Json) (scripts : List String)
    (rawFormats : List RawFormat) (ops : Option (List SigOp))
    (manifestBody : Option String) : RunResult VideoInfo :=
  match get_basic_info fromStr scripts rawFormats ops with
  | .panics => .panics
  | .fail e => .fail e
  | .ok info =>
    .ok { info with formats := sortC sort_formats (info.formats ++ manifestExtras info manifestBody) }

/-! ## The stream opener and the chunker -/

/-- Embedding of the `StreamSession` cursor state (spec §3): byte
`position`, the window size, and the resolved total length. -/
structure StreamSession where
  position : Nat
  windowSize : Nat
  contentLength : Nat
deriving DecidableEq, Repr

/-- Modelled from the spec: `utils::choose_format` (not under `src/`) —
§4.4: "given a filter …, return the first entry satisfying it under the
same order"; nothing matching is the `FormatNotFound` outcome, which
`stream()` maps to `VideoSourceNotFound`. -/
def choose_format (sel : VideoFormat → Bool) (formats : List VideoFormat) : Option VideoFormat :=
  (sortC sort_formats formats).find? sel

/-- `Video::stream` (`src/info.rs:322-380`), from the fetched info to the
constructed session.  `sel` stands for the caller's selection filter
(`VideoOptions`), `dlChunkOverride` for the chunk-size override, and
`originContentLength` for the `content_length()` of the probe request the
source sends when the declared length parses to `0` (`:351-364`; `none` =
the origin supplied no length).  Failure kinds are the source's:
`choose_format` errors and empty locators map to `VideoSourceNotFound`
(`:326-332`), a missing probe length to `VideoNotFound` (`:360`). -/
def stream_setup (info : VideoInfo) (sel : VideoFormat → Bool)
    (dlChunkOverride : Option Nat) (originContentLength : Option Nat) :
    Except VideoError StreamSession :=
  match choose_format sel info.formats with
  | none => .error .VideoSourceNotFound
  | some format =>
    if format.url == "" then .error .VideoSourceNotFound
    else
      let dl_chunk_size := dlChunkOverride.getD (1024 * 1024 * 10)
      let content_length := (parseU64 (format.contentLength.getD "0")).getD 0
      if content_length == 0 then
        match originContentLength with
        | none => .error .VideoNotFound
        | some n => .ok { position := 0, windowSize := dl_chunk_size, contentLength := n }
      else .ok { position := 0, windowSize := dl_chunk_size, contentLength := content_length }

/-- Whether `stream()` must issue the eager length probe for the chosen
format: the declared content length, defaulted to `"0"` and parsed with
`parse::<u64>().unwrap_or(0)`, is zero (`src/info.rs:344-351`). -/
def needsLengthProbe (format : VideoFormat) : Bool :=
  ((parseU64 (format.contentLength.getD "0")).getD 0) == 0

/-- Modelled from the spec: the chunker's pull (`stream.rs` is not under
`src/`) — §4.5: "Each pull requests the range
`[position, min(position + window_size, content_length))`, returns the
body, advances `position`.  End-of-stream is an explicit signal, not an
error, once `position >= content_length`." -/
def pullChunk (s : StreamSession) : Option (Nat × Nat) × StreamSession :=
  if s.contentLength ≤ s.position then (none, s)
  else (some (s.position, min (s.position + s.windowSize) s.contentLength),
        { s with position := s.position + s.windowSize })

/-- The ranges requested by up to `n` successive pulls, stopping at the
end-of-stream signal. -/
def pullRanges : Nat → StreamSession → List (Nat × Nat)
  | 0, _ => []
  | n + 1, s =>
    match pullChunk s with
    | (none, _) => []
    | (some r, s') => r :: pullRanges n s'

/-! ## The `Video` identity and the blocking adapters -/

/-- Modelled from the spec: `constants::BASE_URL` (not under `src/`) —
the "canonical base watch URL" the id is appended to (§3
VideoIdentity). -/
def BASE_URL : String := "https://www.youtube.com/watch?v="

/-- Embedding of the `Video` facade's retained state: the fixed-length
video id (the options and the HTTP client carry no claim content). -/
structure Video where
  video_id : String
deriving DecidableEq, Repr

/-- `Video::get_video_url` (`src/info.rs:383-385`):
`format!("{}{}", BASE_URL, &self.video_id)`. -/
def Video.get_video_url (v : Video) : String := BASE_URL ++ v.video_id

/-- `Video::get_video_id` (`src/info.rs:388-390`). -/
def Video.get_video_id (v : Video) : String := v.video_id

/-- Modelled from the spec: the `block_async!` adapter (its macro
definition is not under `src/`) — §5: the synchronous posture "driv[es]
the same suspend-oriented logic to completion on a dedicated execution
context"; on the pure embedding of an operation's result it is the
identity. -/
def block_async (x : α) : α := x

/-- `blocking::Video` (`src/blocking/info.rs:6`): a newtype over the
async `Video`. -/
structure BlockingVideo where
  inner : Video
deriving DecidableEq, Repr

/-- `blocking::Video::get_basic_info` (`src/blocking/info.rs:24-26`):
`block_async!(self.0.get_basic_info())`. -/
def blocking_get_basic_info (_v : BlockingVideo) (fromStr : String → Option Json)
    (scripts : List String) (rawFormats : List RawFormat) (ops : Option (List SigOp)) :
    RunResult VideoInfo :=
  block_async (get_basic_info fromStr scripts rawFormats ops)

/-- `blocking::Video::get_info` (`src/blocking/info.rs:30-32`). -/
def blocking_get_info (_v : BlockingVideo) (fromStr : String → Option Json)
    (scripts : List String) (rawFormats : List RawFormat) (ops : Option (List SigOp))
    (manifestBody : Option String) : RunResult VideoInfo :=
  block_async (get_info fromStr scripts rawFormats ops manifestBody)

/-- `blocking::Video::get_video_url` (`src/blocking/info.rs:35-37`). -/
def blocking_get_video_url (v : BlockingVideo) : String :=
  v.inner.get_video_url

/-- `blocking::Video::get_video_id` (`src/blocking/info.rs:40-42`). -/
def blocking_get_video_id (v : BlockingVideo) : String :=
  v.inner.get_video_id

/-- `blocking::Stream::chunk` (`src/blocking/stream/streams.rs:12-14`):
`block_async!(self.0.chunk())` over the one shared chunker. -/
def blockingChunk (s : StreamSession) : Option (Nat × Nat) × StreamSession :=
  block_async (pullChunk s)

/-- `blocking::Stream::content_length` (`src/blocking/stream/streams.rs:16-18`). -/
def blockingContentLength (s : StreamSession) : Nat :=
  block_async s.contentLength

/-! ## Concrete inputs used by the witnesses and counterexamples -/

/-- A page with a single script that carries neither marker: both blob
strings come out empty. -/
def scriptsNoBlob : List String := ["hello"]

/-- A toy stand-in for `serde_json::from_str` that recognises no text at
all — in particular, like every JSON parser, it rejects the empty
string. -/
def fromStrNone : String → Option Json := fun _ => none

/-- Player response flagged both private and rental (and carrying a
`streamingData` section), for the gate-ordering witness. -/
def prPrivateRental : Json :=
  Json.obj [("videoDetails", Json.obj [("isPrivate", Json.bool true)]),
            ("playabilityStatus", Json.obj [("ypcRental", Json.bool true)]),
            ("streamingData", Json.obj [])]

/-- Watch-page scripts whose two blobs parse (through `fromStrPR`) to
`prPrivateRental` and an empty initial response. -/
def scriptsPR : List String :=
  ["var ytInitialPlayerResponse = PRDATA;", "var ytInitialData = IRDATA;"]

/-- Toy parser for `scriptsPR`'s two extracted blob strings. -/
def fromStrPR : String → Option Json := fun s =>
  if s = "PRDATA" then some prPrivateRental
  else if s = "IRDATA" then some (Json.obj []) else none

/-- A playable player response advertising an HLS manifest URL. -/
def prWithHls : Json :=
  Json.obj [("streamingData",
    Json.obj [("hlsManifestUrl", Json.str "https://manifest.googlevideo.com/v/1")])]

/-- Scripts for the `prWithHls` page. -/
def scriptsHls : List String :=
  ["var ytInitialPlayerResponse = PHDATA;", "var ytInitialData = IHDATA;"]

/-- Toy parser for `scriptsHls`'s two extracted blob strings. -/
def fromStrHls : String → Option Json := fun s =>
  if s = "PHDATA" then some prWithHls
  else if s = "IHDATA" then some (Json.obj []) else none

/-- One ready-URL raw format. -/
def rawDirect : RawFormat :=
  { itag := 18, url := some "https://r/v.mp4", signatureCipher := none,
    hasVideo := true, hasAudio := true, containerRank := 0, bitrate := 500000,
    contentLength := some "1000" }

/-- The catalog entry `rawDirect` deciphers to. -/
def fmtDirect : VideoFormat :=
  { itag := 18, url := "https://r/v.mp4", hasVideo := true, hasAudio := true,
    containerRank := 0, bitrate := 500000, contentLength := some "1000" }

/-- A cipher-protected raw format, undecipherable when no operation
sequence was recovered. -/
def rawCiphered : RawFormat :=
  { itag := 137, url := none, signatureCipher := some ("abcdef", "https://c/v"),
    hasVideo := true, hasAudio := false, containerRank := 1, bitrate := 800000,
    contentLength := none }

/-- A playable player response with no manifest URLs. -/
def prPlain : Json := Json.obj [("streamingData", Json.obj [])]

/-- Scripts for the `prPlain` page. -/
def scriptsPlain : List String :=
  ["var ytInitialPlayerResponse = PPDATA;", "var ytInitialData = IPDATA;"]

/-- Toy parser for `scriptsPlain`'s two extracted blob strings. -/
def fromStrPlain : String → Option Json := fun s =>
  if s = "PPDATA" then some prPlain
  else if s = "IPDATA" then some (Json.obj []) else none

/-- A chosen format with a locator but no declared content length. -/
def fmtNoLength : VideoFormat :=
  { itag := 251, url := "https://r/a.webm", hasVideo := false, hasAudio := true,
    containerRank := 2, bitrate := 160000, contentLength := none }

/-- Initial-data JSON whose storyboard spec drives
`get_storyboards` into its zero-divisor division: the second `|`-part
`"b"` has no `#` fields, so `thumbnail_count`, `columns` and `rows` all
parse to `0` and the source divides `0 / (0 * 0)`. -/
def storyboardPanicInput : Json :=
  Json.obj [("storyboards",
    Json.obj [("playerStoryboardSpecRenderer",
      Json.obj [("spec", Json.str "a|b")])])]

/-- Formats exercising the sort-order witness: a muxed entry and a
video-only entry sharing container and bitrate. -/
def fmtMuxed : VideoFormat :=
  { itag := 22, url := "https://r/m.mp4", hasVideo := true, hasAudio := true,
    containerRank := 1, bitrate := 700000, contentLength := none }

/-- See `fmtMuxed`. -/
def fmtVideoOnly : VideoFormat :=
  { itag := 299, url := "https://r/v2.mp4", hasVideo := true, hasAudio := false,
    containerRank := 1, bitrate := 700000, contentLength := none }

/-- Rank of the first sort key (`0` for both-audio-and-video entries, `1`
for single-track ones): a derived view of `sort_formats`' first stage,
used to state its characterisations. -/
def bRank (f : VideoFormat) : Nat := if bothAV f then 0 else 1

/-! # Theorems

Helper lemmas first, then one theorem (with witness or counterexample
where required) per claim. -/

/-! ## Ordering helpers -/

theorem cmpNat_lt_iff (m n : Nat) : cmpNat m n = Ordering.lt ↔ m < n := by
  unfold cmpNat
  split
  · simp [*]
  · split <;> simp <;> omega

theorem cmpNat_gt_iff (m n : Nat) : cmpNat m n = Ordering.gt ↔ n < m := by
  unfold cmpNat
  split
  · simp
    omega
  · split <;> simp <;> omega

theorem cmpNat_eq_iff (m n : Nat) : cmpNat m n = Ordering.eq ↔ m = n := by
  unfold cmpNat
  split
  · simp
    omega
  · split <;> simp <;> omega

theorem cmpNat_swap (m n : Nat) : cmpNat m n = (cmpNat n m).swap := by
  unfold cmpNat
  rcases Nat.lt_trichotomy m n with h | h | h
  · simp [h, Nat.lt_asymm h, Ordering.swap]
  · simp [h, Nat.lt_irrefl, Ordering.swap]
  · simp [h, Nat.lt_asymm h, Ordering.swap]

theorem then_swap (a b : Ordering) : (a.then b).swap = a.swap.then b.swap := by
  cases a <;> cases b <;> rfl

theorem then_eq_eq (a b : Ordering) : a.then b = .eq ↔ a = .eq ∧ b = .eq := by
  cases a <;> cases b <;> simp [Ordering.then]

theorem then_ne_gt (a b : Ordering) : a.then b ≠ .gt ↔ a = .lt ∨ (a = .eq ∧ b ≠ .gt) := by
  cases a <;> cases b <;> simp [Ordering.then]

/-- `sort_formats` in normal form: the lexicographic chaining of its three
numeric keys (`bRank` ascending, container rank ascending, bitrate
descending). -/
theorem sort_formats_normal (a b : VideoFormat) :
    sort_formats a b =
      (cmpNat (bRank a) (bRank b)).then
        ((cmpNat a.containerRank b.containerRank).then (cmpNat b.bitrate a.bitrate)) := by
  unfold sort_formats bRank
  cases hA : bothAV a <;> cases hB : bothAV b <;>
    cases hc : cmpNat a.containerRank b.containerRank <;>
      simp [hc, cmpNat, Ordering.then]

theorem sort_formats_swap_helper (a b : VideoFormat) :
    sort_formats a b = (sort_formats b a).swap := by
  rw [sort_formats_normal, sort_formats_normal, then_swap, then_swap,
    cmpNat_swap (bRank b) (bRank a),
    cmpNat_swap b.containerRank a.containerRank,
    cmpNat_swap a.bitrate b.bitrate, Ordering.swap_swap, Ordering.swap_swap,
    Ordering.swap_swap]

theorem sort_formats_eq_iff (a b : VideoFormat) :
    sort_formats a b = .eq ↔
      bRank a = bRank b ∧ a.containerRank = b.containerRank ∧ a.bitrate = b.bitrate := by
  rw [sort_formats_normal, then_eq_eq, then_eq_eq, cmpNat_eq_iff, cmpNat_eq_iff, cmpNat_eq_iff]
  omega

theorem sort_formats_le_iff (a b : VideoFormat) :
    sort_formats a b ≠ .gt ↔
      (bRank a < bRank b ∨ (bRank a = bRank b ∧
        (a.containerRank < b.containerRank ∨ (a.containerRank = b.containerRank ∧
          b.bitrate ≤ a.bitrate)))) := by
  rw [sort_formats_normal, then_ne_gt, then_ne_gt, cmpNat_lt_iff, cmpNat_eq_iff,
    cmpNat_lt_iff, cmpNat_eq_iff]
  simp only [ne_eq, cmpNat_gt_iff]
  omega

theorem sort_formats_le_trans (a b d : VideoFormat) :
    sort_formats a b ≠ .gt → sort_formats b d ≠ .gt → sort_formats a d ≠ .gt := by
  rw [sort_formats_le_iff, sort_formats_le_iff, sort_formats_le_iff]
  omega

/-! ## Generic stable-sort lemmas -/

theorem insertC_perm (c : α → α → Ordering) (x : α) (l : List α) :
    (insertC c x l).Perm (x :: l) := by
  induction l with
  | nil => exact List.Perm.refl _
  | cons y ys ih =>
    unfold insertC
    split
    · exact (ih.cons y).trans (List.Perm.swap x y ys)
    · exact List.Perm.refl _

theorem sortC_perm (c : α → α → Ordering) (l : List α) : (sortC c l).Perm l := by
  induction l with
  | nil => exact List.Perm.refl _
  | cons a l ih => exact (insertC_perm c a (sortC c l)).trans (ih.cons a)

theorem filter_insertC (c : α → α → Ordering) (p : α → Bool) (x : α) (l : List α)
    (hp : p x = true → ∀ y, p y = true → c x y ≠ .gt) :
    (insertC c x l).filter p = if p x then x :: l.filter p else l.filter p := by
  induction l with
  | nil =>
    unfold insertC
    cases hx : p x <;> simp [List.filter, hx]
  | cons y ys ih =>
    unfold insertC
    by_cases hxy : c x y = .gt
    · rw [if_pos hxy]
      cases hx : p x
      · cases hy : p y <;> simp [List.filter, hy, ih, hx]
      · have hyf : p y = false := by
          cases hy : p y
          · rfl
          · exact absurd hxy (hp hx y hy)
        simp [List.filter, hyf, ih, hx]
    · rw [if_neg hxy]
      cases hx : p x <;> simp [List.filter, hx]

theorem sortC_filter (c : α → α → Ordering) (p : α → Bool) (l : List α)
    (hp : ∀ x y, p x = true → p y = true → c x y ≠ .gt) :
    (sortC c l).filter p = l.filter p := by
  induction l with
  | nil => rfl
  | cons a l ih =>
    have : sortC c (a :: l) = insertC c a (sortC c l) := rfl
    rw [this, filter_insertC c p a (sortC c l) (fun hx y hy => hp a y hx hy), ih]
    cases ha : p a <;> simp [List.filter, ha]

theorem insertC_pairwise (c : α → α → Ordering)
    (hswap : ∀ a b, c a b = (c b a).swap)
    (htrans : ∀ a b d, c a b ≠ .gt → c b d ≠ .gt → c a d ≠ .gt)
    (x : α) (l : List α) (h : l.Pairwise (fun a b => c a b ≠ .gt)) :
    (insertC c x l).Pairwise (fun a b => c a b ≠ .gt) := by
  induction l with
  | nil => simp [insertC]
  | cons y ys ih =>
    rcases List.pairwise_cons.mp h with ⟨hy, hys⟩
    unfold insertC
    by_cases hxy : c x y = .gt
    · rw [if_pos hxy]
      refine List.pairwise_cons.mpr ⟨?_, ih hys⟩
      intro z hz
      rcases List.mem_cons.mp ((insertC_perm c x ys).mem_iff.mp hz) with hzx | hzys
      · rw [hzx, hswap y x, hxy]
        simp [Ordering.swap]
      · exact hy z hzys
    · rw [if_neg hxy]
      refine List.pairwise_cons.mpr ⟨?_, h⟩
      intro z hz
      rcases List.mem_cons.mp hz with hzy | hzys
      · subst hzy; exact hxy
      · exact htrans x y z hxy (hy z hzys)

theorem sortC_pairwise (c : α → α → Ordering)
    (hswap : ∀ a b, c a b = (c b a).swap)
    (htrans : ∀ a b d, c a b ≠ .gt → c b d ≠ .gt → c a d ≠ .gt)
    (l : List α) : (sortC c l).Pairwise (fun a b => c a b ≠ .gt) := by
  induction l with
  | nil => simp [sortC]
  | cons a l ih => exact insertC_pairwise c hswap htrans a (sortC c l) ih

theorem sortC_eq_of_pairwise (c : α → α → Ordering) (l : List α)
    (h : l.Pairwise (fun a b => c a b ≠ .gt)) : sortC c l = l := by
  induction l with
  | nil => rfl
  | cons a l ih =>
    rcases List.pairwise_cons.mp h with ⟨ha, hl⟩
    have h1 : sortC c (a :: l) = insertC c a (sortC c l) := rfl
    rw [h1, ih hl]
    cases l with
    | nil => rfl
    | cons b bs =>
      unfold insertC
      rw [if_neg (ha b (List.mem_cons_self b bs))]

theorem sortC_idem (c : α → α → Ordering)
    (hswap : ∀ a b, c a b = (c b a).swap)
    (htrans : ∀ a b d, c a b ≠ .gt → c b d ≠ .gt → c a d ≠ .gt)
    (l : List α) : sortC c (sortC c l) = sortC c l :=
  sortC_eq_of_pairwise c (sortC c l) (sortC_pairwise c hswap htrans l)

/-! ## Claim theorems -/

/-- C4: each pull requests `[position, min(position + window_size,
content_length))` and advances the position by the window; end-of-stream
is the explicit `none` signal, produced exactly when `position ≥
content_length`; with `content_length = 25, window_size = 10` the pulled
ranges are `[0,10) [10,20) [20,25)` and then end, and with
`content_length = 0` the first pull already signals end. -/
theorem chunker_window_ranges :
    (∀ s : StreamSession, s.position < s.contentLength →
      pullChunk s = (some (s.position, min (s.position + s.windowSize) s.contentLength),
        { s with position := s.position + s.windowSize }))
    ∧ (∀ s : StreamSession, (pullChunk s).1 = none ↔ s.contentLength ≤ s.position)
    ∧ (∀ s : StreamSession, s.contentLength ≤ s.position → pullChunk s = (none, s))
    ∧ pullRanges 4 ⟨0, 10, 25⟩ = [(0, 10), (10, 20), (20, 25)]
    ∧ pullRanges 10 ⟨0, 10, 25⟩ = [(0, 10), (10, 20), (20, 25)]
    ∧ pullRanges 1 ⟨0, 10, 0⟩ = [] := by
  refine ⟨?_, ?_, ?_, by decide, by decide, by decide⟩
  · intro s h
    unfold pullChunk
    rw [if_neg (by omega)]
  · intro s
    unfold pullChunk
    split
    · simp
      omega
    · simp
      omega
  · intro s h
    unfold pullChunk
    rw [if_pos h]

/-- Witness for C4 at concrete sessions. -/
theorem chunker_window_ranges_witness :
    ((0 : Nat) < 25 ∧
      pullChunk ⟨0, 10, 25⟩ = (some (0, 10), ⟨10, 10, 25⟩))
    ∧ ((25 : Nat) ≤ 30 ∧ pullChunk ⟨30, 10, 25⟩ = (none, ⟨30, 10, 25⟩)) :=
  ⟨⟨by decide, chunker_window_ranges.1 ⟨0, 10, 25⟩ (by decide)⟩,
   ⟨by decide, chunker_window_ranges.2.2.1 ⟨30, 10, 25⟩ (by decide)⟩⟩

/-- C8: `get_video_url` and `get_video_id` are total functions of the
retained id (pure, no failure outcome in their types), `get_video_url`
is exactly the canonical base watch URL concatenated with
`get_video_id`, and the id is recoverable from the URL. -/
theorem video_url_id_pure :
    (∀ v : Video, Video.get_video_url v = BASE_URL ++ Video.get_video_id v)
    ∧ (∀ v : Video, Video.get_video_id v = v.video_id)
    ∧ (∀ v w : Video, Video.get_video_url v = Video.get_video_url w →
        Video.get_video_id v = Video.get_video_id w) := by
  refine ⟨fun v => rfl, fun v => rfl, ?_⟩
  intro v w h
  unfold Video.get_video_url at h
  unfold Video.get_video_id
  have hd := congrArg String.data h
  rw [String.data_append, String.data_append] at hd
  have hc := List.append_cancel_left hd
  exact congrArg String.mk hc

/-- Witness for C8 at a concrete id. -/
theorem video_url_id_pure_witness :
    Video.get_video_url ⟨"dQw4w9WgXcQ"⟩ = Video.get_video_url ⟨"dQw4w9WgXcQ"⟩
    ∧ Video.get_video_id ⟨"dQw4w9WgXcQ"⟩ = Video.get_video_id ⟨"dQw4w9WgXcQ"⟩ :=
  ⟨rfl, video_url_id_pure.2.2 ⟨"dQw4w9WgXcQ"⟩ ⟨"dQw4w9WgXcQ"⟩ rfl⟩

/-- C9: every blocking operation is `block_async` applied to the one
shared suspend-oriented implementation, so it returns exactly that
implementation's result on the same inputs — info, identity and stream
operations alike; there is no second implementation to drift. -/
theorem blocking_adapters_delegate :
    (∀ (v : BlockingVideo) (fromStr : String → Option Json) (scripts : List String)
        (raw : List RawFormat) (ops : Option (List SigOp)),
      blocking_get_basic_info v fromStr scripts raw ops = get_basic_info fromStr scripts raw ops)
    ∧ (∀ (v : BlockingVideo) (fromStr : String → Option Json) (scripts : List String)
        (raw : List RawFormat) (ops : Option (List SigOp)) (mb : Option String),
      blocking_get_info v fromStr scripts raw ops mb = get_info fromStr scripts raw ops mb)
    ∧ (∀ v : BlockingVideo, blocking_get_video_url v = Video.get_video_url v.inner)
    ∧ (∀ v : BlockingVideo, blocking_get_video_id v = Video.get_video_id v.inner)
    ∧ (∀ s : StreamSession, blockingChunk s = pullChunk s)
    ∧ (∀ s : StreamSession, blockingContentLength s = s.contentLength) :=
  ⟨fun _ _ _ _ _ => rfl, fun _ _ _ _ _ _ => rfl, fun _ => rfl, fun _ => rfl,
   fun _ => rfl, fun _ => rfl⟩

/-- The playability gate can only produce the three gate verdicts; in
particular it never produces `ParseError`. -/
theorem playabilityGate_ne_ParseError (pr : Json) :
    playabilityGate pr ≠ some VideoError.ParseError := by
  unfold playabilityGate
  split
  · simp
  · split
    · simp
    · split
      · simp
      · simp

/-- C2: for a player response with both the privacy flag and the rental
flag set (and no error status, which the gate checks first), the gate —
and with it `get_basic_info` and `get_info` — reports `VideoIsPrivate`,
not `VideoSourceNotFound`: the privacy check precedes the
rental/no-streaming-data check and the first match wins. -/
theorem gate_private_before_rental (pr : Json)
    (hplay : is_play_error pr ["ERROR"] = false)
    (hpriv : is_private_video pr = true)
    (_hrent : is_rental pr = true) :
    playabilityGate pr = some VideoError.VideoIsPrivate
    ∧ (∀ (fromStr : String → Option Json) (scripts : List String)
        (raw : List RawFormat) (ops : Option (List SigOp)) (ir : Json),
        extractBlobs fromStr scripts = some (pr, ir) →
        get_basic_info fromStr scripts raw ops = .fail .VideoIsPrivate)
    ∧ (∀ (fromStr : String → Option Json) (scripts : List String)
        (raw : List RawFormat) (ops : Option (List SigOp)) (ir : Json)
        (mb : Option String),
        extractBlobs fromStr scripts = some (pr, ir) →
        get_info fromStr scripts raw ops mb = .fail .VideoIsPrivate) := by
  have hgate : playabilityGate pr = some VideoError.VideoIsPrivate := by
    unfold playabilityGate
    rw [if_neg (by simp [hplay]), if_pos hpriv]
  have hbasic : ∀ (fromStr : String → Option Json) (scripts : List String)
      (raw : List RawFormat) (ops : Option (List SigOp)) (ir : Json),
      extractBlobs fromStr scripts = some (pr, ir) →
      get_basic_info fromStr scripts raw ops = .fail .VideoIsPrivate := by
    intro fromStr scripts raw ops ir hex
    unfold get_basic_info
    simp only [hex, hgate]
  refine ⟨hgate, hbasic, ?_⟩
  intro fromStr scripts raw ops ir mb hex
  unfold get_info
  simp only [hbasic fromStr scripts raw ops ir hex]

/-- Witness for C2 at a concrete both-flagged response and page. -/
theorem gate_private_before_rental_witness :
    is_play_error prPrivateRental ["ERROR"] = false
    ∧ is_private_video prPrivateRental = true
    ∧ is_rental prPrivateRental = true
    ∧ playabilityGate prPrivateRental = some VideoError.VideoIsPrivate
    ∧ get_basic_info fromStrPR scriptsPR [] none = .fail .VideoIsPrivate :=
  ⟨by decide, by decide, by decide,
   (gate_private_before_rental prPrivateRental (by decide) (by decide) (by decide)).1,
   (gate_private_before_rental prPrivateRental (by decide) (by decide) (by decide)).2.1
     fromStrPR scriptsPR [] none (Json.obj []) (by rfl)⟩

/-- The playability gate's full verdict set: pass, or one of the three
gate errors of `src/info.rs:156-169`. -/
theorem playabilityGate_cases (pr : Json) :
    playabilityGate pr = none
    ∨ playabilityGate pr = some VideoError.VideoNotFound
    ∨ playabilityGate pr = some VideoError.VideoIsPrivate
    ∨ playabilityGate pr = some VideoError.VideoSourceNotFound := by
  unfold playabilityGate
  split
  · simp
  · split
    · simp
    · split
      · simp
      · simp

/-- C1 (evidence): on a watch page missing a blob (no script carries the
player-response marker, so the parsed text is empty and
`serde_json::from_str` fails) `get_basic_info` panics — the embedding's
`RunResult.panics`, standing for the source's `.unwrap()` on the parse
result at `src/info.rs:148-151`; and every run of `get_basic_info`
succeeds, panics, or fails with one of the three gate verdicts —
`VideoError.ParseError` is unreachable, contrary to the claim. -/
theorem get_basic_info_panics_on_bad_blob :
    get_basic_info fromStrNone scriptsNoBlob [] none = RunResult.panics
    ∧ blobString playerMarker scriptsNoBlob = ""
    ∧ (∀ (fromStr : String → Option Json) (scripts : List String)
        (raw : List RawFormat) (ops : Option (List SigOp)),
        (∃ info, get_basic_info fromStr scripts raw ops = RunResult.ok info)
        ∨ get_basic_info fromStr scripts raw ops = RunResult.panics
        ∨ get_basic_info fromStr scripts raw ops = RunResult.fail VideoError.VideoNotFound
        ∨ get_basic_info fromStr scripts raw ops = RunResult.fail VideoError.VideoIsPrivate
        ∨ get_basic_info fromStr scripts raw ops =
            RunResult.fail VideoError.VideoSourceNotFound) := by
  refine ⟨by rfl, by decide, ?_⟩
  intro fromStr scripts raw ops
  unfold get_basic_info
  cases hx : extractBlobs fromStr scripts with
  | none => simp
  | some pir =>
    obtain ⟨pr, ir⟩ := pir
    rcases playabilityGate_cases pr with hg | hg | hg | hg <;> simp only [hg]
    · cases hm : get_media fromStr ir with
      | none => simp
      | some m =>
        simp only [hm]
        exact Or.inl ⟨_, rfl⟩
    · simp
    · simp
    · simp

/-- C5 counterexample: a chosen format with no declared content length and
an origin that supplies none makes `stream()` fail with
`VideoError.VideoNotFound` (`src/info.rs:360`), which is not the
`VideoSourceNotFound` (`SourceUnavailable`) the claim names. -/
theorem stream_missing_length_error_kind_cx :
    stream_setup ⟨none, none, [fmtNoLength]⟩ (fun _ => true) none none =
      .error VideoError.VideoNotFound
    ∧ fmtNoLength.contentLength = none := by
  refine ⟨by rfl, rfl⟩

/-- C5 (amended): when the chosen format declares no content length,
`stream()` resolves the length eagerly — the declared value parses to `0`,
so the probe request is required — and fails with `VideoNotFound` when the
origin supplies no length; when the origin supplies `n`, the session is
built with `content_length = n` before any pull. -/
theorem stream_missing_length_probe (info : VideoInfo) (sel : VideoFormat → Bool)
    (dl : Option Nat) (f : VideoFormat)
    (hf : choose_format sel info.formats = some f)
    (hurl : (f.url == "") = false)
    (hlen : f.contentLength = none) :
    needsLengthProbe f = true
    ∧ stream_setup info sel dl none = .error VideoError.VideoNotFound
    ∧ (∀ n : Nat, stream_setup info sel dl (some n) =
        .ok { position := 0, windowSize := dl.getD (1024 * 1024 * 10), contentLength := n }) := by
  have hp : needsLengthProbe f = true := by
    unfold needsLengthProbe
    rw [hlen]
    rfl
  have hz : (parseU64 (f.contentLength.getD "0")).getD 0 = 0 := by
    rw [hlen]
    rfl
  refine ⟨hp, ?_, ?_⟩
  · unfold stream_setup
    simp only [hf, hurl, hz]
    rfl
  · intro n
    unfold stream_setup
    simp only [hf, hurl, hz]
    rfl

/-- Witness for C5's amended theorem at a concrete format. -/
theorem stream_missing_length_probe_witness :
    choose_format (fun _ => true) [fmtNoLength] = some fmtNoLength
    ∧ needsLengthProbe fmtNoLength = true
    ∧ stream_setup ⟨none, none, [fmtNoLength]⟩ (fun _ => true) none (some 4242) =
        .ok { position := 0, windowSize := 1024 * 1024 * 10, contentLength := 4242 } :=
  ⟨by rfl,
   (stream_missing_length_probe ⟨none, none, [fmtNoLength]⟩ (fun _ => true) none fmtNoLength
     (by rfl) (by decide) rfl).1,
   (stream_missing_length_probe ⟨none, none, [fmtNoLength]⟩ (fun _ => true) none fmtNoLength
     (by rfl) (by decide) rfl).2.2 4242⟩

/-- C10 (evidence): `get_media` and `get_chapters` are total over
arbitrary JSON and always return `Some` (so the `.unwrap()` applied to
`get_media`'s result in `get_basic_info` cannot fire), and
`get_storyboards` returns `Some(vec![])` when no storyboard spec is
present; but on `storyboardPanicInput` — a storyboard spec whose part
has `columns`, `rows` and `thumbnail_count` all `0` — `get_storyboards`
panics with a division by zero (`src/info_extras.rs:622-623`), embedded
as `none`, contradicting the claim's "never a panic". -/
theorem info_extras_total_and_storyboard_panic :
    get_storyboards storyboardPanicInput = none
    ∧ (∀ (fromStr : String → Option Json) (info : Json),
        (get_media fromStr info).isSome = true)
    ∧ (∀ info : Json, (get_chapters info).isSome = true)
    ∧ get_storyboards (Json.obj []) = some [] := by
  refine ⟨by rfl, ?_, ?_, by rfl⟩
  · intro fromStr info
    unfold get_media
    dsimp only
    split
    · simp
    · simp
  · intro info
    unfold get_chapters
    dsimp only
    split
    · simp
    · simp

/-- C3 counterexample: a video whose player response advertises an HLS
manifest URL, but whose fetched manifest recovers no formats, gives
`get_info` exactly `get_basic_info`'s format list — a manifest URL exists
yet the list is not strictly larger. -/
theorem get_info_formats_not_strictly_larger_cx :
    get_basic_info fromStrHls scriptsHls [rawDirect] none =
      .ok { dashManifestUrl := none,
            hlsManifestUrl := some "https://manifest.googlevideo.com/v/1",
            formats := [fmtDirect] }
    ∧ get_info fromStrHls scriptsHls [rawDirect] none (some "") =
      .ok { dashManifestUrl := none,
            hlsManifestUrl := some "https://manifest.googlevideo.com/v/1",
            formats := [fmtDirect] } :=
  ⟨by decide, by decide⟩

/-- C3 (amended): `get_basic_info`'s catalog is built from the
streaming-data entries alone (so it contains no manifest-derived
formats); a successful `get_info` re-sorts that catalog with the
manifest-recovered entries appended, hence is a permutation of
`basic ++ manifestExtras` and a superset of the basic catalog up to
re-sorting; with no HLS manifest URL the extras are empty and the two
lists are equal as multisets — and the extras can also be empty when a
manifest URL exists (fetch failure, no recognised identifiers), so
"strictly larger" need not hold. -/
theorem get_info_formats_superset (fromStr : String → Option Json) (scripts : List String)
    (raw : List RawFormat) (ops : Option (List SigOp)) (mb : Option String) (info : VideoInfo)
    (h : get_basic_info fromStr scripts raw ops = .ok info) :
    info.formats = parse_video_formats ops raw
    ∧ get_info fromStr scripts raw ops mb =
        .ok { info with formats := sortC sort_formats (info.formats ++ manifestExtras info mb) }
    ∧ (sortC sort_formats (info.formats ++ manifestExtras info mb)).Perm
        (info.formats ++ manifestExtras info mb)
    ∧ List.Subperm info.formats (sortC sort_formats (info.formats ++ manifestExtras info mb))
    ∧ (info.hlsManifestUrl = none →
        (sortC sort_formats (info.formats ++ manifestExtras info mb)).Perm info.formats) := by
  refine ⟨?_, ?_, sortC_perm _ _, ?_, ?_⟩
  · unfold get_basic_info at h
    split at h
    · exact absurd h (by simp)
    · split at h
      · exact absurd h (by simp)
      · split at h
        · exact absurd h (by simp)
        · simp only [RunResult.ok.injEq] at h
          rw [← h]
  · unfold get_info
    simp only [h]
  · exact ((List.sublist_append_left info.formats
      (manifestExtras info mb)).subperm).trans (sortC_perm _ _).symm.subperm
  · intro h5
    have hext : manifestExtras info mb = [] := by
      unfold manifestExtras
      rw [h5]
      simp
    rw [hext, List.append_nil]
    exact sortC_perm _ _

/-- Witness for C3's amended theorem at a concrete page. -/
theorem get_info_formats_superset_witness :
    get_basic_info fromStrHls scriptsHls [rawDirect] none =
      .ok ⟨none, some "https://manifest.googlevideo.com/v/1", [fmtDirect]⟩
    ∧ (VideoInfo.mk none (some "https://manifest.googlevideo.com/v/1") [fmtDirect]).formats =
        parse_video_formats none [rawDirect] :=
  ⟨by decide,
   (get_info_formats_superset fromStrHls scriptsHls [rawDirect] none (some "")
     ⟨none, some "https://manifest.googlevideo.com/v/1", [fmtDirect]⟩ (by decide)).1⟩

/-- C7 counterexample: when every streaming-data entry fails decipherment
(cipher entries, no recovered transform routine), `get_info` still
returns `Ok` with an *empty* catalog — the swallowed failures do not
escalate to `VideoSourceNotFound` in `get_basic_info`/`get_info`, so
"escalates iff the catalog is empty" fails there; the escalation only
happens once `stream()` runs selection over the empty catalog. -/
theorem empty_catalog_not_escalated_cx :
    get_info fromStrPlain scriptsPlain [rawCiphered] none none =
      .ok { dashManifestUrl := none, hlsManifestUrl := none, formats := [] }
    ∧ decipherFormat none rawCiphered = none := by
  refine ⟨by decide, by rfl⟩

/-- C7 (amended): a per-format failure — an undecipherable entry, or a
manifest line with an unknown numeric identifier — drops only the
affected format(s): the streaming-data catalog of the remaining entries
is unchanged, and an unknown-itag line contributes nothing; a failed
manifest fetch contributes nothing; `get_basic_info`/`get_info` return
the (possibly empty) catalog as `Ok`, and `stream()` is where an empty
catalog escalates to `VideoSourceNotFound`, via format selection. -/
theorem per_format_failures_dropped :
    (∀ (ops : Option (List SigOp)) (pre post : List RawFormat) (bad : RawFormat),
      decipherFormat ops bad = none →
      parse_video_formats ops (pre ++ bad :: post) = parse_video_formats ops (pre ++ post))
    ∧ (∀ itag url : String, FORMATS.find? (fun p => p.1 == itag) = none →
        hlsFormatFromLine itag url = none)
    ∧ (∀ (info : VideoInfo), info.hlsManifestUrl.isSome →
        manifestExtras info none = [])
    ∧ (∀ (fromStr : String → Option Json) (scripts : List String)
        (raw : List RawFormat) (ops : Option (List SigOp)) (mb : Option String)
        (info : VideoInfo),
        get_basic_info fromStr scripts raw ops = .ok info →
        get_info fromStr scripts raw ops mb =
          .ok { info with formats := sortC sort_formats (info.formats ++ manifestExtras info mb) })
    ∧ (∀ (info : VideoInfo) (sel : VideoFormat → Bool) (dl ocl : Option Nat),
        info.formats = [] →
        stream_setup info sel dl ocl = .error VideoError.VideoSourceNotFound) := by
  refine ⟨?_, ?_, ?_, ?_, ?_⟩
  · intro ops pre post bad hbad
    unfold parse_video_formats
    rw [List.filterMap_append, List.filterMap_append, List.filterMap_cons, hbad]
  · intro itag url h
    unfold hlsFormatFromLine
    rw [h]
  · intro info h
    unfold manifestExtras
    cases hu : info.hlsManifestUrl with
    | none => rw [hu] at h; exact absurd h (by simp)
    | some u => simp [hu]
  · intro fromStr scripts raw ops mb info h
    unfold get_info
    simp only [h]
  · intro info sel dl ocl h
    unfold stream_setup choose_format
    rw [h]
    rfl

/-- Witness for C7's amended theorem at concrete inputs. -/
theorem per_format_failures_dropped_witness :
    decipherFormat none rawCiphered = none
    ∧ parse_video_formats none ([rawDirect] ++ rawCiphered :: [rawDirect]) =
        parse_video_formats none ([rawDirect] ++ [rawDirect])
    ∧ FORMATS.find? (fun p => p.1 == "999") = none
    ∧ hlsFormatFromLine "999" "https://m/seg" = none
    ∧ stream_setup ⟨none, none, []⟩ (fun _ => true) none none =
        .error VideoError.VideoSourceNotFound :=
  ⟨rfl,
   per_format_failures_dropped.1 none [rawDirect] [rawDirect] rawCiphered rfl,
   by decide,
   per_format_failures_dropped.2.1 "999" "https://m/seg" (by decide),
   per_format_failures_dropped.2.2.2.2 ⟨none, none, []⟩ (fun _ => true) none none rfl⟩

/-- Elements tied with a common anchor under `sort_formats` compare as
equal to each other (the comparator is key-based). -/
theorem sort_formats_eq_trans (x y k : VideoFormat)
    (hx : sort_formats x k = .eq) (hy : sort_formats y k = .eq) :
    sort_formats x y = .eq := by
  rw [sort_formats_eq_iff] at hx hy ⊢
  omega

/-- C6: format sorting is stable and total — sorting twice equals sorting
once; the comparator is antisymmetric under swap and orders every pair by
the spec's keys (both-audio-and-video first, then container preference,
then bitrate descending); entries the comparator ties keep their original
discovery order (the tied sublist of the sorted output is the tied
sublist of the input); and the sorted output is a permutation of the
input. -/
theorem sort_formats_stable_total :
    (∀ l : List VideoFormat, sortC sort_formats (sortC sort_formats l) = sortC sort_formats l)
    ∧ (∀ a b : VideoFormat, sort_formats a b = (sort_formats b a).swap)
    ∧ (∀ a b : VideoFormat, bothAV a = true → bothAV b = false → sort_formats a b = .lt)
    ∧ (∀ a b : VideoFormat, bothAV a = bothAV b → a.containerRank < b.containerRank →
        sort_formats a b = .lt)
    ∧ (∀ a b : VideoFormat, bothAV a = bothAV b → a.containerRank = b.containerRank →
        b.bitrate < a.bitrate → sort_formats a b = .lt)
    ∧ (∀ (l : List VideoFormat) (k : VideoFormat),
        (sortC sort_formats l).filter (fun y => decide (sort_formats y k = Ordering.eq)) =
          l.filter (fun y => decide (sort_formats y k = Ordering.eq)))
    ∧ (∀ l : List VideoFormat, (sortC sort_formats l).Perm l) := by
  refine ⟨?_, sort_formats_swap_helper, ?_, ?_, ?_, ?_, sortC_perm _⟩
  · intro l
    exact sortC_idem sort_formats sort_formats_swap_helper sort_formats_le_trans l
  · intro a b ha hb
    rw [sort_formats_normal]
    have h1 : cmpNat (bRank a) (bRank b) = .lt := by
      rw [cmpNat_lt_iff]
      simp [bRank, ha, hb]
    rw [h1]
    rfl
  · intro a b h1 h2
    rw [sort_formats_normal]
    have hb : bRank a = bRank b := by
      unfold bRank
      rw [h1]
    rw [(cmpNat_eq_iff _ _).mpr hb]
    have hc : cmpNat a.containerRank b.containerRank = .lt := (cmpNat_lt_iff _ _).mpr h2
    rw [hc]
    rfl
  · intro a b h1 h2 h3
    rw [sort_formats_normal]
    have hb : bRank a = bRank b := by
      unfold bRank
      rw [h1]
    rw [(cmpNat_eq_iff _ _).mpr hb, (cmpNat_eq_iff _ _).mpr h2]
    have hc : cmpNat b.bitrate a.bitrate = .lt := (cmpNat_lt_iff _ _).mpr h3
    rw [hc]
    rfl
  · intro l k
    refine sortC_filter sort_formats (fun y => decide (sort_formats y k = Ordering.eq)) l ?_
    intro x y hx hy
    have hx' : sort_formats x k = .eq := of_decide_eq_true hx
    have hy' : sort_formats y k = .eq := of_decide_eq_true hy
    rw [sort_formats_eq_trans x y k hx' hy']
    simp

/-- Witness for C6 at concrete formats: idempotence on a concrete list,
and the muxed-before-video-only ordering at equal container and
bitrate. -/
theorem sort_formats_stable_total_witness :
    sortC sort_formats (sortC sort_formats [fmtVideoOnly, fmtMuxed]) =
      sortC sort_formats [fmtVideoOnly, fmtMuxed]
    ∧ bothAV fmtMuxed = true
    ∧ bothAV fmtVideoOnly = false
    ∧ sort_formats fmtMuxed fmtVideoOnly = .lt :=
  ⟨sort_formats_stable_total.1 [fmtVideoOnly, fmtMuxed],
   by decide, by decide,
   sort_formats_stable_total.2.2.1 fmtMuxed fmtVideoOnly (by decide) (by decide)⟩
